import Mathlib

/-!
Verification of the ShopStream API Gateway
(src/services/api-gateway/src/index.js) against its specification.

The gateway's route handlers are shallowly embedded as pure Lean
functions.  External collaborators (Redis, the downstream services,
jwt.verify) are passed in as explicit parameters: a Redis cart entry is
an `Option CartEntry`, the product service is a `Nat → Option Product`
(`none` models a non-ok HTTP response), the order service is a
`OrderRequest → OrderSvcResult`, the token blacklist is a
`String → Bool`, and jwt verification is a `String → Option Claims`.
-/

namespace ShopStream

/-! ## Data model -/

/-- A cart line item `{productId, name, price, image, quantity}` as stored
in Redis under `cart:<userId>`. -/
structure CartItem where
  productId : Nat
  name : String
  price : Int
  image : String
  quantity : Int
deriving DecidableEq, Repr

/-- Product details returned by the product service
(`GET /products/:id`), as used by the cart/add handler. -/
structure Product where
  name : String
  price : Int
  image : String
deriving DecidableEq, Repr

/-- A Redis cart entry: the stored item list together with the TTL set by
`redis.setex` (seconds). `none` at the store level means the key is absent. -/
structure CartEntry where
  items : List CartItem
  ttl : Nat
deriving DecidableEq, Repr

/-- JWT claims; the gateway uses the stable user identifier `id`. -/
structure Claims where
  id : Nat
deriving DecidableEq, Repr

/-! ## Auth Gate (`authenticateToken`, index.js lines 155-176) -/

/-- JS `String.prototype.split(sep)` with a one-character separator:
split at every occurrence, keeping empty pieces. -/
def splitOnChar (sep : Char) : List Char → List (List Char)
  | [] => [[]]
  | c :: rest =>
    match splitOnChar sep rest with
    | [] => [[]]
    | w :: ws => if c = sep then [] :: w :: ws else (c :: w) :: ws

/-- `authHeader && authHeader.split(" ")[1]` — extract the bearer token
from the `Authorization` header.  A missing index-1 piece and the empty
string are both falsy in JS, so both yield `none` for the later
`if (!token)` test. -/
def extractToken (authHeader : Option String) : Option String :=
  match authHeader with
  | none => none
  | some h =>
    match (splitOnChar ' ' h.data)[1]? with
    | none => none
    | some t => if t = [] then none else some (String.mk t)

/-- Outcome of the `authenticateToken` middleware. -/
inductive AuthOutcome where
  /-- 401 `{error: "Authentication required"}` -/
  | unauthenticated
  /-- 401 `{error: "Token has been revoked"}` -/
  | tokenRevoked
  /-- 403 `{error: "Invalid or expired token"}` -/
  | invalidToken
  /-- `req.user = decoded; next()` -/
  | authenticated (user : Claims)
deriving DecidableEq, Repr

/-- HTTP status of a rejection (`none` when the middleware passes the
request on). -/
def authHttpStatus : AuthOutcome → Option Nat
  | .unauthenticated => some 401
  | .tokenRevoked => some 401
  | .invalidToken => some 403
  | .authenticated _ => none

/-- The `authenticateToken` middleware: missing token → 401; blacklisted
token → 401 revoked (checked BEFORE signature verification); verification
failure → 403; otherwise attach the decoded claims. -/
def authenticateToken (authHeader : Option String) (blacklist : String → Bool)
    (verify : String → Option Claims) : AuthOutcome :=
  match extractToken authHeader with
  | none => .unauthenticated
  | some token =>
    if blacklist token then .tokenRevoked
    else
      match verify token with
      | some decoded => .authenticated decoded
      | none => .invalidToken

/-! ## Health check (`GET /health`, index.js lines 200-250) -/

/-- The four downstream services of `config.services`. -/
inductive Service where
  | auth
  | product
  | order
  | notification
deriving DecidableEq, Repr

/-- `Object.entries(config.services)` iteration order. -/
def serviceList : List Service := [.auth, .product, .order, .notification]

/-- Result of probing `${url}/health` with a 2s abort timeout. -/
inductive ProbeResult where
  /-- `response.ok` -/
  | healthy
  /-- responded, but not `response.ok` -/
  | unhealthy
  /-- `fetch` threw (timeout / connection failure) -/
  | unreachable
deriving DecidableEq, Repr

/-- The string stored in `health.services[name]`. -/
def probeLabel : ProbeResult → String
  | .healthy => "healthy"
  | .unhealthy => "unhealthy"
  | .unreachable => "unreachable"

/-- The composite health JSON plus the HTTP status it is sent with. -/
structure HealthReport where
  status : String
  cache : String
  services : List (Service × String)
  database : String
  httpStatus : Nat
deriving DecidableEq, Repr

/-- `GET /health`: status starts `"healthy"`; a failed Redis ping sets it
to `"degraded"`, and each service whose probe THROWS sets it to
`"degraded"`; a service that responds non-ok is recorded `"unhealthy"` in
the map but does not touch the overall status.  HTTP 200 when healthy,
503 otherwise. -/
def healthHandler (redisPing : Bool) (probe : Service → ProbeResult)
    (authDb : Option String) : HealthReport :=
  let cache := if redisPing then "connected" else "disconnected"
  let degraded :=
    (!redisPing) || serviceList.any fun s =>
      match probe s with
      | .unreachable => true
      | _ => false
  let status := if degraded then "degraded" else "healthy"
  { status := status
    cache := cache
    services := serviceList.map fun s => (s, probeLabel (probe s))
    database := authDb.getD "unknown"
    httpStatus := if status = "healthy" then 200 else 503 }

/-! ## Rate limiting (index.js lines 133-149, 294) -/

/-- An `express-rate-limit` policy (`windowMs`, `max`). -/
structure RateLimitPolicy where
  windowMs : Nat
  max : Nat
deriving DecidableEq, Repr

/-- `generalLimiter`: 15 minutes / 100 requests, skipping `/health`. -/
def generalLimiter : RateLimitPolicy := { windowMs := 15 * 60 * 1000, max := 100 }

/-- `authLimiter`: 15 minutes / 10 requests. -/
def authLimiter : RateLimitPolicy := { windowMs := 15 * 60 * 1000, max := 10 }

/-- The general limiter's `skip` option: `req.path === "/health"`. -/
def generalSkip (path : String) : Bool := path = "/health"

/-- Routes the general limiter applies to: everything not skipped
(`app.use(generalLimiter)` is mounted on the whole app). -/
def generalApplies (path : String) : Bool := !generalSkip path

/-- Routes the auth limiter applies to:
`app.use("/auth", authLimiter)` matches `/auth` and `/auth/...`. -/
def authApplies (path : String) : Bool :=
  path = "/auth" || List.isPrefixOf "/auth/".data path.data

/-- Whether a policy allows the `n`-th request from one client identity
within a single window: express-rate-limit rejects once the counter
exceeds `max`, so requests `1..max` pass and request `max+1` is refused. -/
def allowsNth (pol : RateLimitPolicy) (n : Nat) : Bool := n ≤ pol.max

/-- Status returned for the `n`-th in-window request: `none` when the
request is passed on, `some 429` when the limiter rejects it. -/
def limiterResponse (pol : RateLimitPolicy) (n : Nat) : Option Nat :=
  if allowsNth pol n then none else some 429

/-! ## Cart Aggregator (index.js lines 386-472) -/

/-- `cart.find((item) => item.productId === productId)`. -/
def cartFind (cart : List CartItem) (pid : Nat) : Option CartItem :=
  cart.find? fun c => c.productId == pid

/-- Quantity stored for `pid`, read off the first matching entry. -/
def cartQty (cart : List CartItem) (pid : Nat) : Option Int :=
  (cartFind cart pid).map fun c => c.quantity

/-- The productIds of a cart, in order. -/
def cartPids (cart : List CartItem) : List Nat :=
  cart.map fun c => c.productId

/-- In-place mutation of the entry `find` returned: rewrite the first
entry matching `pid` with `f`, leaving everything else in place. -/
def updateFirst (cart : List CartItem) (pid : Nat) (f : CartItem → CartItem) :
    List CartItem :=
  match cart with
  | [] => []
  | c :: rest =>
    if c.productId == pid then f c :: rest
    else c :: updateFirst rest pid f

/-- `GET /cart`: `cartData ? JSON.parse(cartData) : []`. -/
def getCart (st : Option CartEntry) : List CartItem :=
  match st with
  | none => []
  | some e => e.items

/-- Cart-level result of `POST /cart/add`. -/
inductive AddItemResult where
  | ok (newCart : List CartItem)
  /-- 404 `{error: "Product not found"}` when the product lookup is not ok -/
  | productNotFound
deriving DecidableEq, Repr

/-- The cart transformation of `POST /cart/add`: an existing entry has its
quantity incremented; otherwise the product service is consulted
(`products pid = none` models a non-ok response) and a snapshot of
name/price/image is appended. -/
def addItemCart (cart : List CartItem) (productId : Nat) (quantity : Int)
    (products : Nat → Option Product) : AddItemResult :=
  match cartFind cart productId with
  | some _ =>
    .ok (updateFirst cart productId fun c => { c with quantity := c.quantity + quantity })
  | none =>
    match products productId with
    | none => .productNotFound
    | some p =>
      .ok (cart ++ [{ productId := productId, name := p.name, price := p.price,
                      image := p.image, quantity := quantity }])

/-- Response of the `POST /cart/add` handler. -/
inductive AddResp where
  | ok (cart : List CartItem)
  | productNotFound
deriving DecidableEq, Repr

/-- HTTP status of an `AddResp`. -/
def addRespStatus : AddResp → Nat
  | .ok _ => 200
  | .productNotFound => 404

/-- The full `POST /cart/add` handler over the Redis state: on success the
new cart is written with `setex`'s fresh 7-day TTL; on `ProductNotFound`
nothing is written (the 404 is returned before `redis.setex`). -/
def addItemHandler (st : Option CartEntry) (productId : Nat) (quantity : Int)
    (products : Nat → Option Product) : AddResp × Option CartEntry :=
  match addItemCart (getCart st) productId quantity products with
  | .productNotFound => (.productNotFound, st)
  | .ok newCart => (.ok newCart, some { items := newCart, ttl := 86400 * 7 })

/-- A sequence of `POST /cart/add` calls for one productId, each with its
own quantity; `none` as soon as one call fails with `ProductNotFound`. -/
def addItems (cart : List CartItem) (pid : Nat) (qs : List Int)
    (products : Nat → Option Product) : Option (List CartItem) :=
  match qs with
  | [] => some cart
  | q :: rest =>
    match addItemCart cart pid q products with
    | .productNotFound => none
    | .ok c => addItems c pid rest products

/-- One iteration of the `POST /cart/sync` merge loop: an existing entry
takes `Math.max` of quantities; a missing one is pushed verbatim. -/
def syncStep (cart : List CartItem) (item : CartItem) : List CartItem :=
  match cartFind cart item.productId with
  | some _ =>
    updateFirst cart item.productId fun c => { c with quantity := max c.quantity item.quantity }
  | none => cart ++ [item]

/-- The `POST /cart/sync` merge: fold the incoming client list into the
stored cart. -/
def syncCart (cart : List CartItem) (items : List CartItem) : List CartItem :=
  items.foldl syncStep cart

/-- Quantity the incoming sync list carries for `pid` (first occurrence). -/
def incomingQty (items : List CartItem) (pid : Nat) : Option Int :=
  ((items.find? fun c => c.productId == pid).map fun c => c.quantity)

/-! ## Checkout Orchestrator (`POST /orders`, index.js lines 495-551) -/

/-- The body submitted to `POST /orders` of the order service. -/
structure OrderRequest where
  userId : Nat
  items : List CartItem
  total : Int
deriving DecidableEq, Repr

/-- `cart.reduce((sum, item) => sum + item.price * item.quantity, 0)`. -/
def orderTotal (cart : List CartItem) : Int :=
  cart.foldl (fun sum item => sum + item.price * item.quantity) 0

/-- The order payload returned by the order service (fields the gateway
reads: `order.id`, `order.total`). -/
structure Order where
  id : Nat
  total : Int
deriving DecidableEq, Repr

/-- Result of the order-service `fetch`. -/
inductive OrderSvcResult where
  /-- `orderResponse.ok`, body parsed as the order -/
  | success (order : Order)
  /-- non-ok response: status code and parsed error body -/
  | failure (status : Nat) (body : String)
  /-- `fetch` threw (caught by the handler's outer try) -/
  | netError
deriving DecidableEq, Repr

/-- Body of the notification call
`{userId, type:"order_created", data:{orderId, total}}`. -/
structure NotifyPayload where
  userId : Nat
  type : String
  dataOrderId : Nat
  dataTotal : Int
deriving DecidableEq, Repr

/-- Response body of `POST /orders` at the gateway. -/
inductive RespBody where
  /-- `{error: msg}` produced by the gateway itself -/
  | errorMsg (msg : String)
  /-- downstream error body relayed verbatim -/
  | passthrough (body : String)
  /-- 201 with the order payload -/
  | orderPayload (o : Order)
deriving DecidableEq, Repr

/-- Everything observable about one `POST /orders` request: the response,
the Redis cart entry afterwards, which downstream calls were issued, and
whether a notification failure was logged. -/
structure CheckoutResult where
  status : Nat
  body : RespBody
  newStore : Option CartEntry
  orderCall : Option OrderRequest
  notifyCall : Option NotifyPayload
  notifyFailureLogged : Bool
deriving DecidableEq, Repr

/-- The `POST /orders` handler.  `!cartData` → 400 "Cart is empty" (note:
this tests Redis key absence, not list emptiness).  Otherwise the order
request is submitted; a non-ok downstream status/body is relayed and the
cart kept; a thrown fetch gives the generic 500 and the cart is kept; on
success the cart key is deleted, the notification is attempted
(`notifyOk = false` models its fetch throwing, which is only logged), and
201 with the order payload is returned. -/
def checkout (userId : Nat) (st : Option CartEntry)
    (orderSvc : OrderRequest → OrderSvcResult) (notifyOk : Bool) : CheckoutResult :=
  match st with
  | none =>
    { status := 400, body := .errorMsg "Cart is empty", newStore := none,
      orderCall := none, notifyCall := none, notifyFailureLogged := false }
  | some entry =>
    let cart := entry.items
    let req : OrderRequest := { userId := userId, items := cart, total := orderTotal cart }
    match orderSvc req with
    | .netError =>
      { status := 500, body := .errorMsg "Failed to create order", newStore := some entry,
        orderCall := some req, notifyCall := none, notifyFailureLogged := false }
    | .failure s b =>
      { status := s, body := .passthrough b, newStore := some entry,
        orderCall := some req, notifyCall := none, notifyFailureLogged := false }
    | .success order =>
      { status := 201, body := .orderPayload order, newStore := none,
        orderCall := some req,
        notifyCall := some { userId := userId, type := "order_created",
                             dataOrderId := order.id, dataTotal := order.total },
        notifyFailureLogged := !notifyOk }

/-! ## Helper lemmas about cart lookup and update -/

theorem cartFind_cons (c : CartItem) (rest : List CartItem) (pid : Nat) :
    cartFind (c :: rest) pid =
      if c.productId == pid then some c else cartFind rest pid := by
  cases hb : (c.productId == pid) with
  | true => simp [cartFind, List.find?_cons_of_pos, hb]
  | false => simp [cartFind, List.find?_cons_of_neg, hb]

theorem cartFind_eq_none_iff (cart : List CartItem) (pid : Nat) :
    cartFind cart pid = none ↔ pid ∉ cartPids cart := by
  simp [cartFind, cartPids, List.find?_eq_none]

theorem cartFind_append (cart l : List CartItem) (pid : Nat) :
    cartFind (cart ++ l) pid = (cartFind cart pid).or (cartFind l pid) := by
  simp [cartFind, List.find?_append]

theorem cartFind_updateFirst_ne (cart : List CartItem) (pid p : Nat)
    (f : CartItem → CartItem) (hf : ∀ c, (f c).productId = c.productId)
    (hne : p ≠ pid) :
    cartFind (updateFirst cart pid f) p = cartFind cart p := by
  induction cart with
  | nil => rfl
  | cons c rest ih =>
    by_cases h : c.productId = pid
    · have h1 : (c.productId == pid) = true := by simp [h]
      have h2 : ((f c).productId == p) = false := by simp [hf c, h, Ne.symm hne]
      have h3 : (c.productId == p) = false := by simp [h, Ne.symm hne]
      simp [updateFirst, h1, cartFind_cons, h2, h3]
    · have h1 : (c.productId == pid) = false := by simp [h]
      simp [updateFirst, h1, cartFind_cons, ih]

theorem cartFind_updateFirst_self (cart : List CartItem) (pid : Nat)
    (f : CartItem → CartItem) (hf : ∀ c, (f c).productId = c.productId)
    (c : CartItem) (h : cartFind cart pid = some c) :
    cartFind (updateFirst cart pid f) pid = some (f c) := by
  induction cart with
  | nil => simp [cartFind] at h
  | cons c0 rest ih =>
    by_cases hc : c0.productId = pid
    · have h1 : (c0.productId == pid) = true := by simp [hc]
      have h2 : ((f c0).productId == pid) = true := by simp [hf c0, hc]
      rw [cartFind_cons, if_pos h1] at h
      obtain rfl : c0 = c := by injection h
      simp [updateFirst, h1, cartFind_cons, h2]
    · have h1 : (c0.productId == pid) = false := by simp [hc]
      rw [cartFind_cons, if_neg (by simp [h1])] at h
      simp [updateFirst, h1, cartFind_cons, ih h]

theorem mem_updateFirst (cart : List CartItem) (pid : Nat)
    (f : CartItem → CartItem) (c : CartItem)
    (hmem : c ∈ cart) (hne : c.productId ≠ pid) :
    c ∈ updateFirst cart pid f := by
  induction cart with
  | nil => cases hmem
  | cons c0 rest ih =>
    by_cases h : c0.productId = pid
    · have h1 : (c0.productId == pid) = true := by simp [h]
      have : c ∈ rest := by
        cases List.mem_cons.mp hmem with
        | inl he => exact absurd (he ▸ h) hne
        | inr hr => exact hr
      simp [updateFirst, h1, List.mem_cons, this]
    · have h1 : (c0.productId == pid) = false := by simp [h]
      cases List.mem_cons.mp hmem with
      | inl he => simp [updateFirst, h1, he]
      | inr hr => simp [updateFirst, h1, List.mem_cons, ih hr]

theorem cartPids_updateFirst (cart : List CartItem) (pid : Nat)
    (f : CartItem → CartItem) (hf : ∀ c, (f c).productId = c.productId) :
    cartPids (updateFirst cart pid f) = cartPids cart := by
  induction cart with
  | nil => rfl
  | cons c0 rest ih =>
    by_cases h : c0.productId = pid
    · have h1 : (c0.productId == pid) = true := by simp [h]
      simp [updateFirst, h1, cartPids, hf c0]
    · have h1 : (c0.productId == pid) = false := by simp [h]
      simpa [updateFirst, h1, cartPids] using ih

theorem cartFind_syncStep_ne (cart : List CartItem) (item : CartItem) (p : Nat)
    (hne : p ≠ item.productId) :
    cartFind (syncStep cart item) p = cartFind cart p := by
  unfold syncStep
  cases h : cartFind cart item.productId with
  | some c => exact cartFind_updateFirst_ne _ _ _ _ (fun _ => rfl) hne
  | none =>
    rw [cartFind_append]
    have hi : cartFind [item] p = none := by simp [cartFind, Ne.symm hne]
    rw [hi, Option.or_none]

theorem cartQty_syncStep_ne (cart : List CartItem) (item : CartItem) (p : Nat)
    (hne : p ≠ item.productId) :
    cartQty (syncStep cart item) p = cartQty cart p := by
  unfold cartQty
  rw [cartFind_syncStep_ne _ _ _ hne]

theorem cartQty_syncStep_self (cart : List CartItem) (item : CartItem) :
    cartQty (syncStep cart item) item.productId =
      some (match cartQty cart item.productId with
            | some q => max q item.quantity
            | none => item.quantity) := by
  unfold syncStep
  cases h : cartFind cart item.productId with
  | some c =>
    have hu := cartFind_updateFirst_self cart item.productId
      (fun x => { x with quantity := max x.quantity item.quantity }) (fun _ => rfl) c h
    simp [cartQty, hu, h]
  | none =>
    have hi : cartFind [item] item.productId = some item := by simp [cartFind]
    simp [cartQty, cartFind_append, h, hi]

theorem incomingQty_eq_cartQty (items : List CartItem) (p : Nat) :
    incomingQty items p = cartQty items p := rfl

theorem cartQty_syncCart :
    ∀ (items : List CartItem), (cartPids items).Nodup →
    ∀ (cart : List CartItem) (p : Nat),
    cartQty (syncCart cart items) p =
      match cartQty cart p, incomingQty items p with
      | some q0, some q1 => some (max q0 q1)
      | some q0, none => some q0
      | none, some q1 => some q1
      | none, none => none := by
  intro items
  induction items with
  | nil =>
    intro _ cart p
    cases h : cartQty cart p <;> simp [syncCart, incomingQty, cartFind, h]
  | cons item rest ih =>
    intro hN cart p
    have hpids : cartPids (item :: rest) = item.productId :: cartPids rest := rfl
    rw [hpids] at hN
    have hhead : item.productId ∉ cartPids rest := (List.nodup_cons.mp hN).1
    have htail : (cartPids rest).Nodup := (List.nodup_cons.mp hN).2
    have hstep : syncCart cart (item :: rest) = syncCart (syncStep cart item) rest := rfl
    by_cases hp : p = item.productId
    · subst hp
      have hin : incomingQty (item :: rest) item.productId = some item.quantity := by
        simp [incomingQty]
      have hrest : incomingQty rest item.productId = none := by
        rw [incomingQty_eq_cartQty]
        unfold cartQty
        rw [(cartFind_eq_none_iff _ _).mpr hhead]
        rfl
      rw [hstep, ih htail, hrest, cartQty_syncStep_self, hin]
      cases hq : cartQty cart item.productId <;> simp
    · have hin : incomingQty (item :: rest) p = incomingQty rest p := by
        have : (item.productId == p) = false := by simp [Ne.symm hp]
        simp [incomingQty, List.find?_cons_of_neg, this]
      rw [hstep, ih htail, cartQty_syncStep_ne _ _ _ hp, hin]

theorem mem_syncStep_of_ne (cart : List CartItem) (i c : CartItem)
    (hmem : c ∈ cart) (hne : i.productId ≠ c.productId) :
    c ∈ syncStep cart i := by
  unfold syncStep
  cases cartFind cart i.productId with
  | some _ => exact mem_updateFirst _ _ _ _ hmem (Ne.symm hne)
  | none => exact List.mem_append_left _ hmem

theorem mem_syncCart_of_ne :
    ∀ (items cart : List CartItem) (c : CartItem),
    c ∈ cart → (∀ i ∈ items, i.productId ≠ c.productId) → c ∈ syncCart cart items := by
  intro items
  induction items with
  | nil => intro cart c h _; exact h
  | cons i rest ih =>
    intro cart c h hall
    exact ih (syncStep cart i) c
      (mem_syncStep_of_ne _ _ _ h (hall i (List.mem_cons_self _ _)))
      (fun j hj => hall j (List.mem_cons_of_mem _ hj))

theorem syncStep_eq_update (cart : List CartItem) (i c : CartItem)
    (h : cartFind cart i.productId = some c) :
    syncStep cart i =
      updateFirst cart i.productId fun x => { x with quantity := max x.quantity i.quantity } := by
  unfold syncStep
  rw [h]

theorem syncStep_eq_append (cart : List CartItem) (i : CartItem)
    (h : cartFind cart i.productId = none) :
    syncStep cart i = cart ++ [i] := by
  unfold syncStep
  rw [h]

theorem not_mem_pids_syncStep (cart : List CartItem) (i : CartItem) (a : Nat)
    (ha : a ∉ cartPids cart) (hne : a ≠ i.productId) :
    a ∉ cartPids (syncStep cart i) := by
  cases h : cartFind cart i.productId with
  | some c =>
    rw [syncStep_eq_update cart i c h,
      cartPids_updateFirst cart i.productId
        (fun x => { x with quantity := max x.quantity i.quantity }) (fun _ => rfl)]
    exact ha
  | none =>
    rw [syncStep_eq_append cart i h]
    have hpids : cartPids (cart ++ [i]) = cartPids cart ++ [i.productId] := by
      simp [cartPids]
    rw [hpids]
    intro hmem
    rcases List.mem_append.mp hmem with h1 | h1
    · exact ha h1
    · exact hne (List.mem_singleton.mp h1)

theorem syncCart_appends_verbatim :
    ∀ (items cart : List CartItem) (item : CartItem),
    item ∈ items → item.productId ∉ cartPids cart → (cartPids items).Nodup →
    item ∈ syncCart cart items := by
  intro items
  induction items with
  | nil => intro cart item h; cases h
  | cons i rest ih =>
    intro cart item hmem habs hN
    have hpids : cartPids (i :: rest) = i.productId :: cartPids rest := rfl
    rw [hpids] at hN
    have hhead : i.productId ∉ cartPids rest := (List.nodup_cons.mp hN).1
    have htail : (cartPids rest).Nodup := (List.nodup_cons.mp hN).2
    cases List.mem_cons.mp hmem with
    | inl he =>
      subst he
      have hfind : cartFind cart item.productId = none :=
        (cartFind_eq_none_iff _ _).mpr habs
      have hstep : syncStep cart item = cart ++ [item] := by
        unfold syncStep
        rw [hfind]
      show item ∈ syncCart (syncStep cart item) rest
      rw [hstep]
      apply mem_syncCart_of_ne rest _ item
        (List.mem_append_right _ (List.mem_singleton_self _))
      intro j hj heq
      exact hhead (heq ▸ List.mem_map.mpr ⟨j, hj, rfl⟩)
    | inr hr =>
      have hne : item.productId ≠ i.productId := by
        intro heq
        exact hhead (heq ▸ List.mem_map.mpr ⟨item, hr, rfl⟩)
      exact ih (syncStep cart i) item hr
        (not_mem_pids_syncStep _ _ _ habs hne) htail

theorem addItems_present (products : Nat → Option Product) (pid : Nat) :
    ∀ (qs : List Int) (cart : List CartItem) (c : CartItem),
    cartFind cart pid = some c →
    ∃ final, addItems cart pid qs products = some final ∧
      cartFind final pid = some { c with quantity := c.quantity + qs.sum } ∧
      cartPids final = cartPids cart := by
  intro qs
  induction qs with
  | nil =>
    intro cart c h
    exact ⟨cart, rfl, by simpa using h, rfl⟩
  | cons q rest ih =>
    intro cart c h
    have hstep : addItemCart cart pid q products =
        .ok (updateFirst cart pid fun x => { x with quantity := x.quantity + q }) := by
      unfold addItemCart
      rw [h]
    have hfind : cartFind (updateFirst cart pid fun x => { x with quantity := x.quantity + q })
        pid = some { c with quantity := c.quantity + q } :=
      cartFind_updateFirst_self cart pid
        (fun x => { x with quantity := x.quantity + q }) (fun _ => rfl) c h
    obtain ⟨final, h1, h2, h3⟩ := ih _ _ hfind
    refine ⟨final, ?_, ?_, ?_⟩
    · simp [addItems, hstep, h1]
    · rw [List.sum_cons, ← Int.add_assoc]
      exact h2
    · rw [h3, cartPids_updateFirst cart pid
        (fun x => { x with quantity := x.quantity + q }) (fun _ => rfl)]

/-! ## Helper lemmas about the health handler -/

theorem healthHandler_status (ping : Bool) (probe : Service → ProbeResult)
    (db : Option String) :
    (healthHandler ping probe db).status =
      if ((!ping) || serviceList.any fun s =>
          match probe s with
          | ProbeResult.unreachable => true
          | _ => false) then "degraded" else "healthy" := rfl

theorem healthHandler_httpStatus (ping : Bool) (probe : Service → ProbeResult)
    (db : Option String) :
    (healthHandler ping probe db).httpStatus =
      if (healthHandler ping probe db).status = "healthy" then 200 else 503 := rfl

theorem health_degraded_false_iff (ping : Bool) (probe : Service → ProbeResult) :
    (((!ping) || serviceList.any fun s =>
        match probe s with
        | ProbeResult.unreachable => true
        | _ => false) = false) ↔
      (ping = true ∧ ∀ s, probe s ≠ ProbeResult.unreachable) := by
  have flag : ∀ r : ProbeResult,
      ((match r with | ProbeResult.unreachable => true | _ => false) = false) ↔
        r ≠ ProbeResult.unreachable := by
    intro r
    cases r <;> simp
  simp only [serviceList, List.any_cons, List.any_nil, Bool.or_false,
    Bool.or_eq_false_iff, flag]
  constructor
  · rintro ⟨h0, h1, h2, h3, h4⟩
    refine ⟨by simpa using h0, ?_⟩
    intro s
    cases s
    · exact h1
    · exact h2
    · exact h3
    · exact h4
  · rintro ⟨h0, hall⟩
    exact ⟨by simpa using h0, hall .auth, hall .product, hall .order, hall .notification⟩

/-! ## Claim theorems -/

/-- Claim C1, counterexample: with Redis reachable and the product
service responding to its health probe with a non-ok status, the
composite status stays `"healthy"` and the handler returns HTTP 200,
although the probe reported the service unhealthy — refuting
"'healthy' only if every configured downstream service's health probe
reports healthy". -/
theorem C1_health_counterexample :
    (healthHandler true
        (fun s => match s with | .product => .unhealthy | _ => .healthy) none).status
      = "healthy" ∧
    (healthHandler true
        (fun s => match s with | .product => .unhealthy | _ => .healthy) none).httpStatus
      = 200 ∧
    (Service.product, "unhealthy") ∈
      (healthHandler true
        (fun s => match s with | .product => .unhealthy | _ => .healthy) none).services := by
  decide

/-- Claim C1, amended: the composite status is `"healthy"` iff the cache
ping succeeds and every downstream probe completes without throwing (a
service that responds non-ok is recorded `"unhealthy"` but does not
degrade the overall status), and the HTTP code is 200 when healthy and
503 otherwise. -/
theorem C1_health_amended (ping : Bool) (probe : Service → ProbeResult)
    (db : Option String) :
    ((healthHandler ping probe db).status = "healthy" ↔
      (ping = true ∧ ∀ s, probe s ≠ ProbeResult.unreachable)) ∧
    (healthHandler ping probe db).httpStatus =
      (if (healthHandler ping probe db).status = "healthy" then 200 else 503) := by
  refine ⟨?_, healthHandler_httpStatus ping probe db⟩
  rw [healthHandler_status]
  by_cases hD : ((!ping) || serviceList.any fun s =>
      match probe s with
      | ProbeResult.unreachable => true
      | _ => false) = true
  · rw [if_pos hD]
    constructor
    · intro h
      exact absurd h (by decide)
    · intro h
      have hfalse := (health_degraded_false_iff ping probe).mpr h
      rw [hfalse] at hD
      exact absurd hD (by decide)
  · have hD' : ((!ping) || serviceList.any fun s =>
        match probe s with
        | ProbeResult.unreachable => true
        | _ => false) = false := by
      simpa using hD
    rw [if_neg (by simp [hD'])]
    exact ⟨fun _ => (health_degraded_false_iff ping probe).mp hD', fun _ => rfl⟩

/-- Witness for C1_health_amended at a concrete healthy input. -/
theorem C1_health_amended_witness :
    (healthHandler true (fun _ => ProbeResult.healthy) none).status = "healthy" :=
  (C1_health_amended true (fun _ => ProbeResult.healthy) none).1.mpr
    ⟨rfl, fun s => by cases s <;> decide⟩

/-- Claim C2, counterexample: a stored cart whose value is the empty list
(reachable via `POST /cart/sync` with `items: []`) makes `GET /cart`
return the empty sequence, yet `POST /orders` does not fail with 400: it
submits an order request for the empty cart and returns 201 — refuting
"for every user whose cart is empty ... no request is issued to the order
service". -/
theorem C2_empty_cart_counterexample :
    getCart (some { items := [], ttl := 604800 }) = [] ∧
    (checkout 7 (some { items := [], ttl := 604800 })
        (fun _ => .success { id := 42, total := 0 }) true).status = 201 ∧
    (checkout 7 (some { items := [], ttl := 604800 })
        (fun _ => .success { id := 42, total := 0 }) true).orderCall =
      some { userId := 7, items := [], total := 0 } := by
  decide

/-- Claim C2, amended: the `EmptyCart` test is key absence, not list
emptiness: when no cart is stored for the user, `POST /orders` fails
with 400 `{error:"Cart is empty"}` and issues no order-service call
(a stored empty list instead passes the check). -/
theorem C2_empty_cart_amended (uid : Nat) (orderSvc : OrderRequest → OrderSvcResult)
    (notifyOk : Bool) :
    checkout uid none orderSvc notifyOk =
      { status := 400, body := .errorMsg "Cart is empty", newStore := none,
        orderCall := none, notifyCall := none, notifyFailureLogged := false } := rfl

/-- Claim C3, counterexample: the two rate-limit policies do NOT apply to
disjoint route sets — `/auth/login` is subject to both the general
limiter (mounted app-wide) and the auth limiter (mounted on `/auth`). -/
theorem C3_rate_limit_counterexample :
    generalApplies "/auth/login" = true ∧ authApplies "/auth/login" = true := by
  decide

/-- Claim C3, amended: the route sets overlap rather than being disjoint
(every auth route is also under the general limiter); the 11th in-window
request to an auth route is still rejected with 429 because the stricter
auth limit (15 min / 10) binds before the general one (15 min / 100),
and the health-check path is exempt from the general policy. -/
theorem C3_rate_limit_amended :
    (∀ p, authApplies p = true → generalApplies p = true) ∧
    limiterResponse authLimiter 11 = some 429 ∧
    allowsNth authLimiter 10 = true ∧
    allowsNth generalLimiter 11 = true ∧
    generalApplies "/health" = false ∧
    authLimiter.max = 10 ∧ generalLimiter.max = 100 ∧
    authLimiter.windowMs = 15 * 60 * 1000 ∧
    generalLimiter.windowMs = 15 * 60 * 1000 := by
  refine ⟨?_, by decide, by decide, by decide, by decide, rfl, rfl, rfl, rfl⟩
  intro p hp
  by_cases hph : p = "/health"
  · subst hph
    exact absurd hp (by decide)
  · simp [generalApplies, generalSkip, hph]

/-- Witness for C3_rate_limit_amended at the login route. -/
theorem C3_rate_limit_amended_witness :
    generalApplies "/auth/login" = true :=
  C3_rate_limit_amended.1 "/auth/login" (by decide)

/-- Claim C4: any request whose token is in the revocation store is
rejected with TokenRevoked (HTTP 401) no matter what `jwt.verify` would
say (the blacklist is consulted first), and a non-revoked token that
verifies has its decoded claims attached to the request. -/
theorem C4_auth_gate (hdr : Option String) (token : String)
    (blacklist : String → Bool) (verify : String → Option Claims)
    (h : extractToken hdr = some token) :
    (blacklist token = true →
      authenticateToken hdr blacklist verify = .tokenRevoked ∧
      authHttpStatus (authenticateToken hdr blacklist verify) = some 401) ∧
    (blacklist token = false → ∀ c, verify token = some c →
      authenticateToken hdr blacklist verify = .authenticated c) := by
  constructor
  · intro hb
    simp [authenticateToken, h, hb, authHttpStatus]
  · intro hb c hv
    simp [authenticateToken, h, hb, hv]

/-- Witness for C4_auth_gate: a concrete revoked token is rejected even
though it verifies, and a concrete valid token is attached. -/
theorem C4_auth_gate_witness :
    authenticateToken (some "Bearer tok1") (fun t => t == "tok1")
      (fun _ => some { id := 7 }) = .tokenRevoked ∧
    authenticateToken (some "Bearer tok2") (fun _ => false)
      (fun t => if t == "tok2" then some { id := 7 } else none)
      = .authenticated { id := 7 } := by
  constructor
  · exact ((C4_auth_gate (some "Bearer tok1") "tok1" (fun t => t == "tok1")
      (fun _ => some { id := 7 }) (by decide)).1 (by decide)).1
  · exact (C4_auth_gate (some "Bearer tok2") "tok2" (fun _ => false)
      (fun t => if t == "tok2" then some { id := 7 } else none) (by decide)).2
      rfl { id := 7 } (by decide)

/-- Claim C5: when the order-service call returns a non-success status
the gateway relays that status and body; when the call throws it fails
with the generic 500 order-creation error; in both cases the stored cart
entry — contents and TTL — is left exactly as it was, preserved for
retry. -/
theorem C5_checkout_failure (uid ttl : Nat) (cart : List CartItem)
    (orderSvc : OrderRequest → OrderSvcResult) (notifyOk : Bool) :
    (∀ s b, orderSvc { userId := uid, items := cart, total := orderTotal cart } = .failure s b →
      (checkout uid (some { items := cart, ttl := ttl }) orderSvc notifyOk).status = s ∧
      (checkout uid (some { items := cart, ttl := ttl }) orderSvc notifyOk).body = .passthrough b ∧
      (checkout uid (some { items := cart, ttl := ttl }) orderSvc notifyOk).newStore =
        some { items := cart, ttl := ttl }) ∧
    (orderSvc { userId := uid, items := cart, total := orderTotal cart } = .netError →
      (checkout uid (some { items := cart, ttl := ttl }) orderSvc notifyOk).status = 500 ∧
      (checkout uid (some { items := cart, ttl := ttl }) orderSvc notifyOk).body =
        .errorMsg "Failed to create order" ∧
      (checkout uid (some { items := cart, ttl := ttl }) orderSvc notifyOk).newStore =
        some { items := cart, ttl := ttl }) := by
  constructor
  · intro s b h
    refine ⟨?_, ?_, ?_⟩ <;> simp [checkout, h]
  · intro h
    refine ⟨?_, ?_, ?_⟩ <;> simp [checkout, h]

/-- Witness for C5_checkout_failure: a concrete rejected order leaves the
cart in place and relays status 422 with the downstream body. -/
theorem C5_checkout_failure_witness :
    (checkout 1 (some ⟨[⟨1, "Widget", 10, "w.png", 2⟩], 604800⟩)
      (fun _ => .failure 422 "out of stock") true).status = 422 ∧
    (checkout 1 (some ⟨[⟨1, "Widget", 10, "w.png", 2⟩], 604800⟩)
      (fun _ => .failure 422 "out of stock") true).newStore =
      some ⟨[⟨1, "Widget", 10, "w.png", 2⟩], 604800⟩ := by
  have h := (C5_checkout_failure 1 604800 [⟨1, "Widget", 10, "w.png", 2⟩]
    (fun _ => .failure 422 "out of stock") true).1 422 "out of stock" rfl
  exact ⟨h.1, h.2.2⟩

/-- Claim C6: a checkout with a non-empty cart that succeeds at the order
service deletes the stored cart (a subsequent GetCart yields the empty
sequence), returns 201 with the order payload, and attempts the
notification; this holds whether or not the notification call fails
(`notifyOk` is arbitrary), and the response never reflects that
failure. -/
theorem C6_checkout_success (uid ttl : Nat) (cart : List CartItem) (order : Order)
    (orderSvc : OrderRequest → OrderSvcResult)
    (_hne : cart ≠ [])
    (h : orderSvc { userId := uid, items := cart, total := orderTotal cart } = .success order) :
    ∀ notifyOk : Bool,
      (checkout uid (some { items := cart, ttl := ttl }) orderSvc notifyOk).status = 201 ∧
      (checkout uid (some { items := cart, ttl := ttl }) orderSvc notifyOk).body =
        .orderPayload order ∧
      (checkout uid (some { items := cart, ttl := ttl }) orderSvc notifyOk).newStore = none ∧
      getCart (checkout uid (some { items := cart, ttl := ttl }) orderSvc notifyOk).newStore
        = [] ∧
      (checkout uid (some { items := cart, ttl := ttl }) orderSvc notifyOk).notifyCall =
        some { userId := uid, type := "order_created",
               dataOrderId := order.id, dataTotal := order.total } := by
  intro notifyOk
  refine ⟨?_, ?_, ?_, ?_, ?_⟩ <;> simp [checkout, h, getCart]

/-- Witness for C6_checkout_success: the spec scenario — cart
`[{productId:1, price:10, quantity:2}]`, total 20, order id 42 — with a
failing notification call still clears the cart and returns 201. -/
theorem C6_checkout_success_witness :
    (checkout 1 (some ⟨[⟨1, "Widget", 10, "w.png", 2⟩], 604800⟩)
      (fun _ => .success ⟨42, 20⟩) false).status = 201 ∧
    getCart (checkout 1 (some ⟨[⟨1, "Widget", 10, "w.png", 2⟩], 604800⟩)
      (fun _ => .success ⟨42, 20⟩) false).newStore = [] := by
  have h := C6_checkout_success 1 604800 [⟨1, "Widget", 10, "w.png", 2⟩] ⟨42, 20⟩
    (fun _ => .success ⟨42, 20⟩) (by decide) rfl false
  exact ⟨h.1, h.2.2.2.1⟩

/-- Claim C7: SyncCart is monotonic.  With an incoming list that is
unique by productId, the post-sync quantity of every productId is the
max of the pre-sync quantity and the incoming quantity (the pre-sync
quantity when the id is not in the incoming list, the incoming quantity
when it is not in the stored cart), and it is never below either
side. -/
theorem C7_sync_monotonic (cart items : List CartItem) (p : Nat)
    (hN : (cartPids items).Nodup) :
    (cartQty (syncCart cart items) p =
      match cartQty cart p, incomingQty items p with
      | some q0, some q1 => some (max q0 q1)
      | some q0, none => some q0
      | none, some q1 => some q1
      | none, none => none) ∧
    (∀ q0 q, cartQty cart p = some q0 → cartQty (syncCart cart items) p = some q → q0 ≤ q) ∧
    (∀ q1 q, incomingQty items p = some q1 → cartQty (syncCart cart items) p = some q → q1 ≤ q) := by
  have hchar := cartQty_syncCart items hN cart p
  refine ⟨hchar, ?_, ?_⟩
  · intro q0 q h0 hq
    rw [hchar, h0] at hq
    cases h1 : incomingQty items p with
    | none =>
      rw [h1] at hq
      simp at hq
      omega
    | some q1 =>
      rw [h1] at hq
      simp at hq
      rw [← hq]
      exact le_max_left q0 q1
  · intro q1 q h1 hq
    rw [hchar, h1] at hq
    cases h0 : cartQty cart p with
    | none =>
      rw [h0] at hq
      simp at hq
      omega
    | some q0 =>
      rw [h0] at hq
      simp at hq
      rw [← hq]
      exact le_max_right q0 q1

/-- Witness for C7_sync_monotonic: syncing quantity 3 over a stored
quantity 2 for productId 1 gives max 2 3 = 3. -/
theorem C7_sync_monotonic_witness :
    cartQty (syncCart [⟨1, "a", 5, "i", 2⟩]
        [⟨1, "b", 6, "j", 3⟩, ⟨2, "c", 7, "k", 1⟩]) 1 =
      match cartQty [⟨1, "a", 5, "i", 2⟩] 1,
        incomingQty [⟨1, "b", 6, "j", 3⟩, ⟨2, "c", 7, "k", 1⟩] 1 with
      | some q0, some q1 => some (max q0 q1)
      | some q0, none => some q0
      | none, some q1 => some q1
      | none, none => none :=
  (C7_sync_monotonic [⟨1, "a", 5, "i", 2⟩]
    [⟨1, "b", 6, "j", 3⟩, ⟨2, "c", 7, "k", 1⟩] 1 (by decide)).1

/-- Claim C8: starting from a cart without the productId, any non-empty
sequence of successful AddItem calls for it leaves exactly one entry for
that productId, whose quantity is the sum of the quantities passed, and
preserves uniqueness of the cart by productId. -/
theorem C8_additem_accumulation (cart : List CartItem) (pid : Nat) (prod : Product)
    (products : Nat → Option Product) (qs : List Int)
    (h0 : cartFind cart pid = none) (hp : products pid = some prod) (hqs : qs ≠ []) :
    ∃ final, addItems cart pid qs products = some final ∧
      (cartPids final).count pid = 1 ∧
      cartQty final pid = some qs.sum ∧
      ((cartPids cart).Nodup → (cartPids final).Nodup) := by
  cases qs with
  | nil => exact absurd rfl hqs
  | cons q rest =>
    have hstep : addItemCart cart pid q products =
        .ok (cart ++ [⟨pid, prod.name, prod.price, prod.image, q⟩]) := by
      unfold addItemCart
      rw [h0, hp]
    have hfind : cartFind (cart ++ [⟨pid, prod.name, prod.price, prod.image, q⟩]) pid =
        some ⟨pid, prod.name, prod.price, prod.image, q⟩ := by
      rw [cartFind_append, h0]
      simp [cartFind]
    obtain ⟨final, h1, h2, h3⟩ := addItems_present products pid rest
      (cart ++ [⟨pid, prod.name, prod.price, prod.image, q⟩])
      ⟨pid, prod.name, prod.price, prod.image, q⟩ hfind
    have hpc : cartPids (cart ++ [⟨pid, prod.name, prod.price, prod.image, q⟩]) =
        cartPids cart ++ [pid] := by
      simp [cartPids]
    have hnotmem : pid ∉ cartPids cart := (cartFind_eq_none_iff _ _).mp h0
    refine ⟨final, ?_, ?_, ?_, ?_⟩
    · simp [addItems, hstep, h1]
    · rw [h3, hpc, List.count_append]
      have hz : (cartPids cart).count pid = 0 := List.count_eq_zero.mpr hnotmem
      simp [hz]
    · unfold cartQty
      rw [h2]
      simp [List.sum_cons]
    · intro hnd
      rw [h3, hpc]
      refine List.Nodup.append hnd (List.nodup_singleton _) ?_
      intro a ha hmem
      rw [List.mem_singleton] at hmem
      subst hmem
      exact hnotmem ha

/-- Witness for C8_additem_accumulation: two successful adds of
quantities 2 and 3 for productId 1 on an empty cart. -/
theorem C8_additem_accumulation_witness :
    ∃ final, addItems [] 1 [2, 3] (fun n => if n = 1 then some ⟨"Widget", 10, "w"⟩ else none)
        = some final ∧
      (cartPids final).count 1 = 1 ∧
      cartQty final 1 = some ([2, 3] : List Int).sum ∧
      ((cartPids ([] : List CartItem)).Nodup → (cartPids final).Nodup) :=
  C8_additem_accumulation [] 1 ⟨"Widget", 10, "w"⟩
    (fun n => if n = 1 then some ⟨"Widget", 10, "w"⟩ else none) [2, 3]
    rfl (by decide) (by decide)

/-- Claim C9: SyncCart stores a client item whose productId is absent
from the stored cart verbatim — price, name and image fields included —
with no product-service consultation (`syncCart` takes no product-service
argument at all), and a later checkout submits an order whose total is
computed by `orderTotal` over exactly that stored cart, i.e. from the
client-supplied stored prices. -/
theorem C9_sync_verbatim (cart items : List CartItem) (item : CartItem)
    (hmem : item ∈ items) (habs : item.productId ∉ cartPids cart)
    (hN : (cartPids items).Nodup) :
    item ∈ syncCart cart items ∧
    ∀ (uid ttl : Nat) (orderSvc : OrderRequest → OrderSvcResult) (notifyOk : Bool),
      (checkout uid (some ⟨syncCart cart items, ttl⟩) orderSvc notifyOk).orderCall =
        some { userId := uid, items := syncCart cart items,
               total := orderTotal (syncCart cart items) } := by
  refine ⟨syncCart_appends_verbatim items cart item hmem habs hN, ?_⟩
  intro uid ttl orderSvc notifyOk
  cases h : orderSvc ⟨uid, syncCart cart items, orderTotal (syncCart cart items)⟩ <;>
    simp [checkout, h]

/-- Witness for C9_sync_verbatim: a client item with its own price 1 for
an unknown productId 99 lands verbatim in the cart synced over an empty
store. -/
theorem C9_sync_verbatim_witness :
    (⟨99, "fake", 1, "x", 5⟩ : CartItem) ∈ syncCart [] [⟨99, "fake", 1, "x", 5⟩] :=
  (C9_sync_verbatim [] [⟨99, "fake", 1, "x", 5⟩] ⟨99, "fake", 1, "x", 5⟩
    (by decide) (by decide) (by decide)).1

/-- Claim C10: an AddItem call for a productId not in the stored cart
whose product-service lookup is not ok responds 404 ProductNotFound and
performs no Redis write: the stored entry — contents and TTL alike — is
returned unchanged. -/
theorem C10_additem_atomic_failure (st : Option CartEntry) (pid : Nat) (q : Int)
    (products : Nat → Option Product)
    (h1 : cartFind (getCart st) pid = none) (h2 : products pid = none) :
    addItemHandler st pid q products = (.productNotFound, st) ∧
    addRespStatus (addItemHandler st pid q products).1 = 404 := by
  have hc : addItemCart (getCart st) pid q products = .productNotFound := by
    unfold addItemCart
    rw [h1, h2]
  constructor
  · simp [addItemHandler, hc]
  · simp [addItemHandler, hc, addRespStatus]

/-- Witness for C10_additem_atomic_failure: a failed lookup for
productId 9 leaves a stored cart with TTL 123 untouched. -/
theorem C10_additem_atomic_failure_witness :
    addItemHandler (some ⟨[⟨3, "a", 5, "i", 1⟩], 123⟩) 9 4 (fun _ => none) =
      (.productNotFound, some ⟨[⟨3, "a", 5, "i", 1⟩], 123⟩) :=
  (C10_additem_atomic_failure (some ⟨[⟨3, "a", 5, "i", 1⟩], 123⟩) 9 4 (fun _ => none)
    (by decide) rfl).1

end ShopStream
